import Mathlib

/-!
# Sistema de Documentos Energéticos: audit-data resolution and document generation

A shallow embedding of `src/app.js` (class `EnergyDocumentSystem`).

* JavaScript objects with a fixed shape become structures; a property that the
  code reads through `?.` or defaults with `||` is an `Option` (absent, `null`
  or `undefined` is `none`).
* An `async` method that can throw becomes a function returning `Except`; a
  `try`/`catch` becomes a `match` on the result of the guarded block.
* The external collaborators (Firestore, `fetch`, the DOM) are explicit
  parameters or recorded as `Effect`s, in the order the code issues them.
* The wall clock (`new Date()`) is a parameter `now`, in epoch milliseconds; the
  locale formatting of dates, `String.prototype.toUpperCase` and
  `JSON.stringify` are fields of `Host`.
-/

namespace EnergyDocumentSystem

/-! ## Data model -/

/-- The `cliente` object of an audit record. -/
structure Client where
  nombre : Option String
  email : Option String
  telefono : Option String
deriving DecidableEq, Repr

/-- The `auditoria` object of an audit record: the data of an audit document. -/
structure AuditMeta where
  id : Option String
  fecha : Option String
  auditor : Option String
  tipo_instalacion : Option String
deriving DecidableEq, Repr

/-- One element of `hallazgos`. -/
structure Finding where
  descripcion : String
  criticidad : String
  ubicacion : String
deriving DecidableEq, Repr

/-- One element of `recomendaciones`. -/
structure Recommendation where
  titulo : String
  descripcion : String
  ahorro_estimado : String
deriving DecidableEq, Repr

/-- The record built by `getAuditData` and `getSimulatedData`. The property
`mediciones` is set to `[]` by `getAuditData`, is absent from the simulated
record, and is never read. -/
structure AuditData where
  cliente : Option Client
  auditoria : Option AuditMeta
  hallazgos : Option (List Finding)
  recomendaciones : Option (List Recommendation)
  mediciones : Option (List String)
deriving DecidableEq, Repr

/-- The flat record returned by `processDataForDocument`. -/
structure ProcessedData where
  fecha_generacion : String
  hora_generacion : String
  numero_documento : String
  tipo_documento : String
  cliente_nombre : String
  cliente_email : String
  cliente_telefono : String
  auditoria_id : String
  fecha_auditoria : String
  auditor : String
  tipo_instalacion : String
  total_hallazgos : Nat
  total_recomendaciones : Nat
  hallazgos : List Finding
  recomendaciones : List Recommendation
  resumen_ejecutivo : String
deriving DecidableEq, Repr

/-- Functions of the JavaScript host that the code calls and that are built
into the platform: `Date.prototype.toLocaleDateString('es-ES')`,
`Date.prototype.toLocaleTimeString('es-ES')` (both of an epoch-millisecond
reading), `String.prototype.toUpperCase` (the Unicode upper-casing of a
string) and `JSON.stringify` of a processed record. -/
structure Host where
  toLocaleDateString : Nat → String
  toLocaleTimeString : Nat → String
  toUpperCase : String → String
  stringify : ProcessedData → String

/-- A `Blob`: either built by `new Blob(parts, { type })` or a binary body
received from the network. -/
inductive Blob where
  | ofParts (parts : List String) (type : String)
  | ofBytes (bytes : List Nat) (type : String)
deriving DecidableEq, Repr

/-- A value appended to a `FormData`. -/
inductive FormValue where
  | file (blob : Blob) (filename : String)
  | text (value : String)
deriving DecidableEq, Repr

/-- The arguments of a `fetch` call. -/
structure Request where
  url : String
  method : String
  headers : List (String × String)
  body : List (String × FormValue)
deriving DecidableEq, Repr

/-- What `fetch` resolves to: the status and the outcome of `response.blob()`. -/
structure Response where
  status : Nat
  blob : Except String Blob

/-- The `ok` property of a response: the status is in the range 200 to 299. -/
def Response.ok (r : Response) : Bool :=
  decide (200 ≤ r.status) && decide (r.status ≤ 299)

/-- The object returned by `generateWithDocumentero` and `generateHTMLFallback`. -/
structure RenderResult where
  success : Bool
  blob : Blob
  filename : String
deriving DecidableEq, Repr

/-- What `doc(...).get()` resolves to: `exists` false, or true with `data()`. -/
inductive DocSnapshot where
  | missing
  | existing (data : AuditMeta)
deriving DecidableEq, Repr

/-- The outcome of the findings query and of the `forEach` over its snapshot. -/
inductive QueryResult where
  /-- The `collection(...).where(...).get()` chain throws. -/
  | rejected (error : String)
  /-- The snapshot holds `docs` and `forEach` visits all of them. -/
  | complete (docs : List Finding)
  /-- The callback of `forEach` pushed `docs` and then an exception was thrown. -/
  | interrupted (docs : List Finding) (error : String)
deriving DecidableEq, Repr

/-- The Firestore handle `this.db`, reduced to the two reads the code performs. -/
structure Firestore where
  /-- The call `collection(name).doc(id).get()`. -/
  docGet : String → String → Except String DocSnapshot
  /-- The call `collection(name).where(field, '==', value).get()` and the iteration. -/
  whereGet : String → String → String → QueryResult

/-- The object `window.CONFIG`, reduced to `documenteroConfig.baseUrl`. -/
structure Config where
  baseUrl : String
deriving DecidableEq, Repr

/-- An observable action of the system on a collaborator, in issue order. -/
inductive Effect where
  /-- A document lookup `collection(name).doc(id).get()`. -/
  | dbGet (collection id : String)
  /-- A query `collection(name).where(field, '==', value).get()`. -/
  | dbWhere (collection field value : String)
  /-- A `fetch` call. -/
  | fetch (request : Request)
  /-- A call `updateSystemStatus(system, status)`. -/
  | systemStatus (system status : String)
  /-- A call `updateStatus(type, message)`. -/
  | status (type message : String)
  /-- The download started by `downloadFile(blob, filename)`. -/
  | download (blob : Blob) (filename : String)
  /-- A call `addDocumentToList(filename, type)`. -/
  | listed (filename type : String)
deriving DecidableEq, Repr

/-- The environment of one `EnergyDocumentSystem` instance. -/
structure Context where
  host : Host
  /-- The object `window.CONFIG`; `none` when it is undefined. -/
  config : Option Config
  /-- The field `this.db`; `none` when it is `null`. -/
  db : Option Firestore
  /-- The global `fetch`. -/
  fetch : Request → Except String Response

/-! ## Resolver: `getSimulatedData` and `getAuditData` -/

/-- The method `getSimulatedData(auditId)`; `now` is the reading of `new Date()`. -/
def getSimulatedData (host : Host) (now : Nat) (auditId : String) : AuditData :=
  { cliente := some
      { nombre := some "Empresa Ejemplo S.A."
        email := some "contacto@ejemplo.com"
        telefono := some "+52 55 1234 5678" }
    auditoria := some
      { id := some auditId
        fecha := some (host.toLocaleDateString now)
        auditor := some "Juan Pérez"
        tipo_instalacion := some "Industrial" }
    hallazgos := some
      [ { descripcion := "Consumo elevado en iluminación"
          criticidad := "alta"
          ubicacion := "Área de producción" },
        { descripcion := "Factor de potencia bajo"
          criticidad := "media"
          ubicacion := "Tablero principal" } ]
    recomendaciones := some
      [ { titulo := "Cambio a iluminación LED"
          descripcion := "Reemplazar luminarias actuales por LED"
          ahorro_estimado := "30% del consumo actual" } ]
    mediciones := none }

/-- The candidate collection names of `getAuditData`, in the order tried. -/
def collections : List String := ["auditorias", "audits", "auditoría"]

/-- The `for` loop of `getAuditData` over the candidate collections: a lookup
that finds the document ends the loop (`break`); a miss or a thrown error
(caught inside the loop) moves on to the next candidate. -/
def findAuditoria (db : Firestore) (auditId : String) :
    List String → List Effect × Option AuditMeta
  | [] => ([], none)
  | collectionName :: rest =>
    match db.docGet collectionName auditId with
    | .ok (.existing data) => ([Effect.dbGet collectionName auditId], some data)
    | .ok .missing =>
      let r := findAuditoria db auditId rest
      (Effect.dbGet collectionName auditId :: r.1, r.2)
    | .error _ =>
      let r := findAuditoria db auditId rest
      (Effect.dbGet collectionName auditId :: r.1, r.2)

/-- The findings block of `getAuditData`: the query on `hallazgos` filtered by
`auditoria_id`, pushing each document; an error is caught and keeps what was
pushed before it. -/
def findHallazgos (db : Firestore) (auditId : String) : List Effect × List Finding :=
  match db.whereGet "hallazgos" "auditoria_id" auditId with
  | .rejected _ => ([Effect.dbWhere "hallazgos" "auditoria_id" auditId], [])
  | .complete docs => ([Effect.dbWhere "hallazgos" "auditoria_id" auditId], docs)
  | .interrupted docs _ => ([Effect.dbWhere "hallazgos" "auditoria_id" auditId], docs)

/-- The body of the outer `try` block of `getAuditData`. -/
def getAuditDataTry (host : Host) (db : Firestore) (now : Nat) (auditId : String) :
    List Effect × Except String AuditData :=
  let found := findAuditoria db auditId collections
  let queried := findHallazgos db auditId
  let auditData : AuditData :=
    { cliente := none
      auditoria := found.2
      hallazgos := some queried.2
      recomendaciones := some []
      mediciones := some [] }
  if found.2.isNone && queried.2.length == 0 then
    (found.1 ++ queried.1, .ok (getSimulatedData host now auditId))
  else
    (found.1 ++ queried.1, .ok auditData)

/-- The method `getAuditData(auditId)`: the effects issued and the outcome. -/
def getAuditData (ctx : Context) (now : Nat) (auditId : String) :
    List Effect × Except String AuditData :=
  match ctx.db with
  | none => ([], .ok (getSimulatedData ctx.host now auditId))
  | some db =>
    match getAuditDataTry ctx.host db now auditId with
    | (fx, .ok auditData) => (fx, .ok auditData)
    | (fx, .error _) => (fx, .ok (getSimulatedData ctx.host now auditId))

/-! ## Projector: `processDataForDocument` and `generateSummary` -/

/-- The expression `value || fallback` for a string-valued property that may be
absent: an absent or empty `value` is falsy and yields `fallback`. -/
def orDefault (value : Option String) (fallback : String) : String :=
  match value with
  | none => fallback
  | some s => if s = "" then fallback else s

/-- The expression `list?.length || 0`. -/
def lengthOrZero {α : Type} (list : Option (List α)) : Nat :=
  match list with
  | none => 0
  | some l => if l.length = 0 then 0 else l.length

/-- The expression `list || []`. -/
def listOrEmpty {α : Type} (list : Option (List α)) : List α :=
  match list with
  | none => []
  | some l => l

/-- The text of a non-negative integer in a template literal: its decimal
digits. Lengths and epoch-millisecond readings are below `10^21`, where
JavaScript prints a number in plain decimal. -/
def numberToString (n : Nat) : String := toString n

/-- The method `generateSummary(auditData)`. -/
def generateSummary (auditData : AuditData) : String :=
  let empresa := orDefault (auditData.cliente.bind fun c => c.nombre) "la instalación"
  let hallazgos := lengthOrZero auditData.hallazgos
  ("Se realizó una auditoría energética en " ++ empresa ++ ". ") ++
    ("Se identificaron " ++ numberToString hallazgos ++ " hallazgos que requieren atención. ") ++
    "Se han formulado recomendaciones específicas para mejorar la eficiencia energética."

/-- The method `processDataForDocument(auditData, documentType)`; `now` is the
reading of `new Date()`, in epoch milliseconds. -/
def processDataForDocument (host : Host) (now : Nat) (auditData : AuditData)
    (documentType : String) : ProcessedData :=
  { fecha_generacion := host.toLocaleDateString now
    hora_generacion := host.toLocaleTimeString now
    numero_documento := host.toUpperCase documentType ++ "-" ++ numberToString now
    tipo_documento := documentType
    cliente_nombre :=
      orDefault (auditData.cliente.bind fun c => c.nombre) "Cliente no especificado"
    cliente_email := orDefault (auditData.cliente.bind fun c => c.email) ""
    cliente_telefono := orDefault (auditData.cliente.bind fun c => c.telefono) ""
    auditoria_id := orDefault (auditData.auditoria.bind fun a => a.id) "N/A"
    fecha_auditoria :=
      orDefault (auditData.auditoria.bind fun a => a.fecha) (host.toLocaleDateString now)
    auditor := orDefault (auditData.auditoria.bind fun a => a.auditor) "Auditor Energético"
    tipo_instalacion :=
      orDefault (auditData.auditoria.bind fun a => a.tipo_instalacion) "Industrial"
    total_hallazgos := lengthOrZero auditData.hallazgos
    total_recomendaciones := lengthOrZero auditData.recomendaciones
    hallazgos := listOrEmpty auditData.hallazgos
    recomendaciones := listOrEmpty auditData.recomendaciones
    resumen_ejecutivo := generateSummary auditData }

/-! ## Renderer: `createBasicTemplate`, `generateHTMLFallback`, `generateWithDocumentero` -/

/-- The method `createBasicTemplate(data)`. -/
def createBasicTemplate (data : ProcessedData) : String :=
  String.join
    [ "\n        REPORTE DE AUDITORÍA ENERGÉTICA\n        \n        Cliente: ",
      data.cliente_nombre,
      "\n        Fecha: ",
      data.fecha_auditoria,
      "\n        Auditor: ",
      data.auditor,
      "\n        \n        RESUMEN:\n        ",
      data.resumen_ejecutivo,
      "\n        \n        HALLAZGOS (",
      numberToString data.total_hallazgos,
      "):\n        ",
      "\n".intercalate (data.hallazgos.enum.map fun ih =>
        String.join [numberToString (ih.1 + 1), ". ", ih.2.descripcion,
          " (", ih.2.criticidad, ")"]),
      "\n        \n        RECOMENDACIONES (",
      numberToString data.total_recomendaciones,
      "):\n        ",
      "\n".intercalate (data.recomendaciones.enum.map fun ir =>
        String.join [numberToString (ir.1 + 1), ". ", ir.2.titulo, ": ", ir.2.descripcion]),
      "\n        \n        Documento generado el ",
      data.fecha_generacion,
      " a las ",
      data.hora_generacion,
      "\n        " ]

/-- The markup of one finding in `generateHTMLFallback`. -/
def hallazgoHtml (h : Finding) : String :=
  String.join
    [ "\n                    <div class=\"hallazgo\">\n                        <strong>",
      h.descripcion,
      "</strong><br>\n                        <small>Criticidad: ",
      h.criticidad,
      " | Ubicación: ",
      h.ubicacion,
      "</small>\n                    </div>\n                " ]

/-- The markup of one recommendation in `generateHTMLFallback`. -/
def recomendacionHtml (r : Recommendation) : String :=
  String.join
    [ "\n                    <div class=\"recomendacion\">\n                        <strong>",
      r.titulo,
      "</strong><br>\n                        <p>",
      r.descripcion,
      "</p>\n                    </div>\n                " ]

/-- The template literal `htmlContent` of `generateHTMLFallback(data)`. -/
def htmlContent (data : ProcessedData) : String :=
  String.join
    [ "\n        <!DOCTYPE html>\n        <html>\n        <head>\n" ++
        "            <title>Reporte de Auditoría - ",
      data.numero_documento,
      "</title>\n            <style>\n" ++
        "                body \x7b font-family: Arial, sans-serif; margin: 40px; \x7d\n" ++
        "                h1 \x7b color: #333; border-bottom: 2px solid #667eea; \x7d\n" ++
        "                .section \x7b margin: 20px 0; \x7d\n" ++
        "                .hallazgo \x7b background: #f8f9fa; padding: 15px; margin: 10px 0; " ++
        "border-left: 4px solid #dc3545; \x7d\n" ++
        "                .recomendacion \x7b background: #f8f9fa; padding: 15px; " ++
        "margin: 10px 0; border-left: 4px solid #28a745; \x7d\n" ++
        "            </style>\n        </head>\n        <body>\n" ++
        "            <h1>🔥 Reporte de Auditoría Energética</h1>\n            \n" ++
        "            <div class=\"section\">\n" ++
        "                <h2>📋 Información General</h2>\n" ++
        "                <p><strong>Cliente:</strong> ",
      data.cliente_nombre,
      "</p>\n                <p><strong>Fecha de Auditoría:</strong> ",
      data.fecha_auditoria,
      "</p>\n                <p><strong>Auditor:</strong> ",
      data.auditor,
      "</p>\n                <p><strong>Número de Documento:</strong> ",
      data.numero_documento,
      "</p>\n            </div>\n\n            <div class=\"section\">\n" ++
        "                <h2>📊 Resumen Ejecutivo</h2>\n                <p>",
      data.resumen_ejecutivo,
      "</p>\n            </div>\n\n            <div class=\"section\">\n" ++
        "                <h2>🔍 Hallazgos (",
      numberToString data.total_hallazgos,
      ")</h2>\n                ",
      String.join (data.hallazgos.map hallazgoHtml),
      "\n            </div>\n\n            <div class=\"section\">\n" ++
        "                <h2>💡 Recomendaciones (",
      numberToString data.total_recomendaciones,
      ")</h2>\n                ",
      String.join (data.recomendaciones.map recomendacionHtml),
      "\n            </div>\n\n            <div class=\"section\">\n" ++
        "                <p><small>Documento generado el ",
      data.fecha_generacion,
      " a las ",
      data.hora_generacion,
      "</small></p>\n            </div>\n        </body>\n        </html>\n        " ]

/-- The method `generateHTMLFallback(data)`. -/
def generateHTMLFallback (data : ProcessedData) : RenderResult :=
  { success := true
    blob := Blob.ofParts [htmlContent data] "text/html"
    filename := data.numero_documento ++ ".html" }

/-- The request that `generateWithDocumentero` passes to `fetch`. -/
def renderRequest (host : Host) (config : Config) (processedData : ProcessedData)
    (apiKey : String) : Request :=
  { url := config.baseUrl ++ "/render"
    method := "POST"
    headers := [("Authorization", "Bearer " ++ apiKey)]
    body :=
      [ ("document", FormValue.file
          (Blob.ofParts [createBasicTemplate processedData]
            "application/vnd.openxmlformats-officedocument.wordprocessingml.document")
          "template.docx"),
        ("data", FormValue.text (host.stringify processedData)),
        ("format", FormValue.text "docx") ] }

/-- The body of the `try` block of `generateWithDocumentero`: reading
`window.CONFIG` when it is undefined throws, `fetch` may reject, a response that
is not `ok` is turned into a thrown error, and `response.blob()` may reject. -/
def generateWithDocumenteroTry (ctx : Context) (processedData : ProcessedData)
    (apiKey : String) : List Effect × Except String RenderResult :=
  match ctx.config with
  | none => ([], .error "Cannot read properties of undefined")
  | some config =>
    let request := renderRequest ctx.host config processedData apiKey
    match ctx.fetch request with
    | .error e => ([Effect.fetch request], .error e)
    | .ok response =>
      if !response.ok then
        ([Effect.fetch request],
          .error ("Error Documentero: " ++ numberToString response.status))
      else
        match response.blob with
        | .error e => ([Effect.fetch request], .error e)
        | .ok documentBlob =>
          ([Effect.fetch request],
            .ok { success := true
                  blob := documentBlob
                  filename := processedData.numero_documento ++ ".docx" })

/-- The method `generateWithDocumentero(processedData, apiKey)`. -/
def generateWithDocumentero (ctx : Context) (processedData : ProcessedData)
    (apiKey : String) : List Effect × Except String RenderResult :=
  match generateWithDocumenteroTry ctx processedData apiKey with
  | (fx, .ok result) => (fx, .ok result)
  | (fx, .error _) => (fx, .ok (generateHTMLFallback processedData))

/-! ## Probe and orchestration: `checkDocumentero`, `downloadFile`, `generateDocument` -/

/-- The request that `checkDocumentero` passes to `fetch`. -/
def pingRequest (config : Config) (apiKey : String) : Request :=
  { url := config.baseUrl ++ "/ping"
    method := "GET"
    headers :=
      [ ("Authorization", "Bearer " ++ apiKey),
        ("Content-Type", "application/json") ]
    body := [] }

/-- The body of the `try` block of `checkDocumentero`. -/
def checkDocumenteroTry (ctx : Context) (apiKey : String) :
    List Effect × Except String Bool :=
  if apiKey = "" then
    ([Effect.systemStatus "documentero" "⚠️"], .ok false)
  else
    match ctx.config with
    | none => ([], .error "Cannot read properties of undefined")
    | some config =>
      let request := pingRequest config apiKey
      match ctx.fetch request with
      | .error e => ([Effect.fetch request], .error e)
      | .ok response =>
        if response.ok || response.status == 404 then
          ([Effect.fetch request, Effect.systemStatus "documentero" "✅"], .ok true)
        else
          ([Effect.fetch request, Effect.systemStatus "documentero" "❌"], .ok false)

/-- The method `checkDocumentero(apiKey)`. -/
def checkDocumentero (ctx : Context) (apiKey : String) : List Effect × Except String Bool :=
  match checkDocumenteroTry ctx apiKey with
  | (fx, .ok connected) => (fx, .ok connected)
  | (fx, .error _) => (fx ++ [Effect.systemStatus "documentero" "⚠️"], .ok true)

/-- The method `downloadFile(blob, filename)`, on its `try` branch: the DOM
calls that create and click the link are taken to succeed. -/
def downloadFile (blob : Blob) (filename : String) : List Effect :=
  [ Effect.download blob filename,
    Effect.status "success" ("📥 Descarga iniciada: " ++ filename) ]

/-- The body of the `try` block of `generateDocument`; `nowAudit` and
`nowProcess` are the clock readings taken inside `getAuditData` and
`processDataForDocument`. -/
def generateDocumentTry (ctx : Context) (nowAudit nowProcess : Nat)
    (apiKey auditId documentType : String) : List Effect × Except String Unit :=
  let fx0 := [Effect.status "info" "🔄 Generando documento..."]
  match checkDocumentero ctx apiKey with
  | (fx1, .error e) => (fx0 ++ fx1, .error e)
  | (fx1, .ok _) =>
    let fx2 := [Effect.status "info" "📊 Obteniendo datos de auditoría..."]
    match getAuditData ctx nowAudit auditId with
    | (fx3, .error e) => (fx0 ++ fx1 ++ fx2 ++ fx3, .error e)
    | (fx3, .ok auditData) =>
      let fx4 := [Effect.status "info" "🔄 Procesando datos..."]
      let processedData := processDataForDocument ctx.host nowProcess auditData documentType
      let fx5 := [Effect.status "info" "📄 Generando documento final..."]
      match generateWithDocumentero ctx processedData apiKey with
      | (fx6, .error e) => (fx0 ++ fx1 ++ fx2 ++ fx3 ++ fx4 ++ fx5 ++ fx6, .error e)
      | (fx6, .ok result) =>
        if result.success then
          (fx0 ++ fx1 ++ fx2 ++ fx3 ++ fx4 ++ fx5 ++ fx6 ++
            downloadFile result.blob result.filename ++
            [ Effect.status "success" ("✅ Documento generado: " ++ result.filename),
              Effect.listed result.filename documentType ],
            .ok ())
        else
          (fx0 ++ fx1 ++ fx2 ++ fx3 ++ fx4 ++ fx5 ++ fx6,
            .error "Error en la generación del documento")

/-- The method `generateDocument()`; `apiKey`, `auditId` and `documentType` are
the values read from the form, the first two after `trim()`. The result is the
sequence of effects: the method itself returns nothing. -/
def generateDocument (ctx : Context) (nowAudit nowProcess : Nat)
    (apiKey auditId documentType : String) : List Effect :=
  if apiKey = "" ∨ auditId = "" ∨ documentType = "" then
    [Effect.status "error" "❌ Por favor completa todos los campos"]
  else
    match generateDocumentTry ctx nowAudit nowProcess apiKey auditId documentType with
    | (fx, .ok _) => fx
    | (fx, .error message) =>
      fx ++ [Effect.status "error" ("❌ Error: " ++ message)]

/-! ## Observations and sample environments used to state the properties -/

/-- The text `part` occurs in `text` as a contiguous run of characters. -/
def Contains (text part : String) : Prop := part.data <:+: text.data

instance instDecidableContains (text part : String) : Decidable (Contains text part) :=
  inferInstanceAs (Decidable (part.data <:+: text.data))

/-- The number that a run of decimal digit characters denotes. -/
def decimalValue (digits : List Char) : Nat :=
  digits.foldl (fun acc c => 10 * acc + (c.toNat - 48)) 0

/-- The files handed to `downloadFile`, in order, among a sequence of effects. -/
def downloads : List Effect → List (Blob × String)
  | [] => []
  | Effect.download blob filename :: rest => (blob, filename) :: downloads rest
  | _ :: rest => downloads rest

/-- The upper-casing of a string of ASCII characters: the letters `a` to `z`
become `A` to `Z`, every other character is kept. -/
def asciiUpperCase (s : String) : String := String.mk (s.data.map Char.toUpper)

/-- The host's `toUpperCase` follows ECMAScript on strings of ASCII characters:
there it is `asciiUpperCase`. -/
def Host.UpperAscii (host : Host) : Prop :=
  ∀ s : String, (∀ c ∈ s.data, c.toNat < 128) → host.toUpperCase s = asciiUpperCase s

/-- A host with fixed date and time texts whose `toUpperCase` upper-cases the
letters `a` to `z` only. -/
def sampleHost : Host :=
  { toLocaleDateString := fun _ => "1/1/2025"
    toLocaleTimeString := fun _ => "12:00:00"
    toUpperCase := asciiUpperCase
    stringify := fun data => data.numero_documento }

/-- The upper-casing of one character among `a` to `z` and `à` to `þ` (the
division sign `÷` apart); every other character is kept. -/
def accentUpper (c : Char) : Char :=
  if 97 ≤ c.toNat ∧ c.toNat ≤ 122 then Char.ofNat (c.toNat - 32)
  else if 224 ≤ c.toNat ∧ c.toNat ≤ 254 ∧ c.toNat ≠ 247 then Char.ofNat (c.toNat - 32)
  else c

/-- A host whose `toUpperCase` also upper-cases the accented letters `à` to `þ`. -/
def accentHost : Host :=
  { toLocaleDateString := fun _ => "1/1/2025"
    toLocaleTimeString := fun _ => "12:00:00"
    toUpperCase := fun s => String.mk (s.data.map accentUpper)
    stringify := fun data => data.numero_documento }

/-- An environment with `accentHost`, no backend connection and a network that
always fails. -/
def accentCtx : Context :=
  { host := accentHost
    config := some { baseUrl := "https://api.example" }
    db := none
    fetch := fun _ => .error "Failed to fetch" }

/-- An environment with no backend connection and a network that always fails. -/
def offlineCtx : Context :=
  { host := sampleHost
    config := some { baseUrl := "https://api.example" }
    db := none
    fetch := fun _ => .error "Failed to fetch" }

/-- A backend in which no collection holds the document and the findings query throws. -/
def emptyDb : Firestore :=
  { docGet := fun collectionName _ =>
      if collectionName = "audits" then .error "missing collection" else .ok .missing
    whereGet := fun _ _ _ => .rejected "permission denied" }

/-- The data of the audit document stored by `auditsOnlyDb`. -/
def storedMeta : AuditMeta :=
  { id := some "A1", fecha := some "3/2/2025", auditor := some "Ana", tipo_instalacion := none }

/-- A backend that holds the audit document `A1` in the collection `audits` only
and has no findings. -/
def auditsOnlyDb : Firestore :=
  { docGet := fun collectionName id =>
      if collectionName = "audits" ∧ id = "A1" then .ok (.existing storedMeta)
      else .ok .missing
    whereGet := fun _ _ _ => .complete [] }

/-- A projected document with two findings, used as a concrete input. -/
def sampleDocument : ProcessedData :=
  { fecha_generacion := "1/1/2025"
    hora_generacion := "12:00:00"
    numero_documento := "INFORME-1735732800000"
    tipo_documento := "informe"
    cliente_nombre := "Planta Norte"
    cliente_email := ""
    cliente_telefono := ""
    auditoria_id := "A1"
    fecha_auditoria := "3/2/2025"
    auditor := "Ana"
    tipo_instalacion := "Industrial"
    total_hallazgos := 2
    total_recomendaciones := 0
    hallazgos :=
      [ { descripcion := "Fuga de aire", criticidad := "alta", ubicacion := "Nave 1" },
        { descripcion := "Motor viejo", criticidad := "baja", ubicacion := "Nave 2" } ]
    recomendaciones := []
    resumen_ejecutivo := "Resumen" }

/-- An environment with no backend connection whose network answers every
request with HTTP 500. -/
def serverErrorCtx : Context :=
  { host := sampleHost
    config := some { baseUrl := "https://api.example" }
    db := none
    fetch := fun _ => .ok { status := 500, blob := .ok (Blob.ofBytes [] "text/plain") } }

/-- The binary body served by `renderingCtx`. -/
def servedBody : Blob := Blob.ofBytes [80, 75, 3, 4] "application/octet-stream"

/-- An environment with no backend connection whose network answers every
request with HTTP 200 and the body `servedBody`. -/
def renderingCtx : Context :=
  { host := sampleHost
    config := some { baseUrl := "https://api.example" }
    db := none
    fetch := fun _ => .ok { status := 200, blob := .ok servedBody } }

/-- An audit record with a named client and one finding. -/
def recordA : AuditData :=
  { cliente := some { nombre := some "Planta Norte", email := none, telefono := some "" }
    auditoria := some { id := some "A1", fecha := none, auditor := none, tipo_instalacion := none }
    hallazgos := some
      [ { descripcion := "Fuga de aire", criticidad := "alta", ubicacion := "Nave 1" } ]
    recomendaciones := none
    mediciones := none }

/-- An audit record with the same client name and number of findings as
`recordA`, and different findings, recommendations and audit metadata. -/
def recordB : AuditData :=
  { cliente := some { nombre := some "Planta Norte", email := some "x@y.z", telefono := none }
    auditoria := none
    hallazgos := some
      [ { descripcion := "Motor viejo", criticidad := "baja", ubicacion := "Nave 2" } ]
    recomendaciones := some
      [ { titulo := "Variador", descripcion := "Instalar variador", ahorro_estimado := "5%" } ]
    mediciones := some [] }

/-- The requests passed to `fetch`, in order, among a sequence of effects. -/
def requests : List Effect → List Request
  | [] => []
  | Effect.fetch request :: rest => request :: requests rest
  | _ :: rest => requests rest

/-- An environment with no backend connection whose network answers every
request with HTTP 404. -/
def notFoundCtx : Context :=
  { host := sampleHost
    config := some { baseUrl := "https://api.example" }
    db := none
    fetch := fun _ => .ok { status := 404, blob := .ok (Blob.ofBytes [] "text/plain") } }

/-! ## Resolver properties -/

/-- The findings block issues exactly one query, whatever its outcome. -/
theorem findHallazgos_fst (db : Firestore) (auditId : String) :
    (findHallazgos db auditId).1 = [Effect.dbWhere "hallazgos" "auditoria_id" auditId] := by
  unfold findHallazgos
  split <;> rfl

/-- The candidate loop finds nothing when every lookup misses or throws. -/
theorem findAuditoria_none (db : Firestore) (auditId : String) (names : List String)
    (h : ∀ c ∈ names, ∀ data, db.docGet c auditId ≠ .ok (.existing data)) :
    (findAuditoria db auditId names).2 = none := by
  induction names with
  | nil => rfl
  | cons c rest ih =>
    have hrest := ih (fun c' hc' => h c' (List.mem_cons_of_mem _ hc'))
    have hc := h c (List.mem_cons_self _ _)
    unfold findAuditoria
    split
    · rename_i data heq
      exact absurd heq (hc data)
    · exact hrest
    · exact hrest

/-- The candidate loop stops at the first name whose lookup finds the document. -/
theorem findAuditoria_hit (db : Firestore) (auditId : String) (before after : List String)
    (c : String) (data : AuditMeta)
    (hbefore : ∀ b ∈ before, ∀ d, db.docGet b auditId ≠ .ok (.existing d))
    (hhit : db.docGet c auditId = .ok (.existing data)) :
    findAuditoria db auditId (before ++ c :: after) =
      ((before.map fun b => Effect.dbGet b auditId) ++ [Effect.dbGet c auditId], some data) := by
  induction before with
  | nil =>
    simp only [List.nil_append, List.map_nil]
    unfold findAuditoria
    rw [hhit]
  | cons b rest ih =>
    have hrest := ih (fun b' hb' => hbefore b' (List.mem_cons_of_mem _ hb'))
    have hb := hbefore b (List.mem_cons_self _ _)
    simp only [List.cons_append, List.map_cons]
    unfold findAuditoria
    split
    · rename_i d heq
      exact absurd heq (hb d)
    · rw [hrest]
    · rw [hrest]

/-- C1: with no backend connection (`this.db` null), `getAuditData(auditId)`
issues no backend query and returns exactly `getSimulatedData(auditId)`, whose
client is named "Empresa Ejemplo S.A.", whose findings are exactly "Consumo
elevado en iluminación" (alta) and "Factor de potencia bajo" (media) in this
order, and whose single recommendation is titled "Cambio a iluminación LED";
client, findings and recommendations are the same for every auditId. -/
theorem getAuditData_without_backend (ctx : Context) (now : Nat) (auditId : String) :
    getAuditData { ctx with db := none } now auditId
        = ([], .ok (getSimulatedData ctx.host now auditId)) ∧
      ((getSimulatedData ctx.host now auditId).cliente.bind fun c => c.nombre)
        = some "Empresa Ejemplo S.A." ∧
      ((getSimulatedData ctx.host now auditId).hallazgos.map fun l =>
          l.map fun h => (h.descripcion, h.criticidad))
        = some [("Consumo elevado en iluminación", "alta"),
                ("Factor de potencia bajo", "media")] ∧
      ((getSimulatedData ctx.host now auditId).recomendaciones.map fun l =>
          l.map fun r => r.titulo)
        = some ["Cambio a iluminación LED"] ∧
      ∀ (host2 : Host) (now2 : Nat) (auditId2 : String),
        (getSimulatedData host2 now2 auditId2).cliente
            = (getSimulatedData ctx.host now auditId).cliente ∧
          (getSimulatedData host2 now2 auditId2).hallazgos
            = (getSimulatedData ctx.host now auditId).hallazgos ∧
          (getSimulatedData host2 now2 auditId2).recomendaciones
            = (getSimulatedData ctx.host now auditId).recomendaciones := by
  refine ⟨rfl, rfl, rfl, rfl, ?_⟩
  intro host2 now2 auditId2
  exact ⟨rfl, rfl, rfl⟩

/-- C2: with a backend connection, when each of the three candidate lookups
reports the document absent or throws and the findings query yields no document
or throws, `getAuditData(auditId)` raises no error and returns exactly
`getSimulatedData(auditId)`. -/
theorem getAuditData_nothing_found (ctx : Context) (db : Firestore) (now : Nat)
    (auditId : String)
    (hdocs : ∀ c ∈ collections,
      db.docGet c auditId = .ok .missing ∨ ∃ e, db.docGet c auditId = .error e)
    (hfind : (∃ e, db.whereGet "hallazgos" "auditoria_id" auditId = .rejected e) ∨
      db.whereGet "hallazgos" "auditoria_id" auditId = .complete [] ∨
      ∃ e, db.whereGet "hallazgos" "auditoria_id" auditId = .interrupted [] e) :
    (getAuditData { ctx with db := some db } now auditId).2
      = .ok (getSimulatedData ctx.host now auditId) := by
  have hnone : (findAuditoria db auditId collections).2 = none := by
    apply findAuditoria_none
    intro c hc data heq
    rcases hdocs c hc with h | ⟨e, h⟩ <;> rw [h] at heq <;> cases heq
  have hempty : (findHallazgos db auditId).2 = [] := by
    unfold findHallazgos
    rcases hfind with ⟨e, h⟩ | h | ⟨e, h⟩ <;> rw [h]
  simp [getAuditData, getAuditDataTry, hnone, hempty]

/-- Witness of C2 on `emptyDb`, for the audit `A1`. -/
theorem getAuditData_nothing_found_witness :
    (getAuditData { offlineCtx with db := some emptyDb } 0 "A1").2
      = .ok (getSimulatedData offlineCtx.host 0 "A1") :=
  getAuditData_nothing_found offlineCtx emptyDb 0 "A1"
    (by
      intro c hc
      simp only [collections, List.mem_cons, List.mem_singleton, List.not_mem_nil,
        or_false] at hc
      rcases hc with h | h | h <;> subst h
      · exact Or.inl rfl
      · exact Or.inr ⟨"missing collection", rfl⟩
      · exact Or.inl rfl)
    (Or.inl ⟨"permission denied", rfl⟩)

/-- C3, as stated, fails: the document `A1` exists in `audits` only, and
`getAuditData` still issues a lookup against the candidate `auditorias`, which
comes before `audits` in the list. -/
theorem getAuditData_looks_up_earlier_candidate :
    auditsOnlyDb.docGet "auditorias" "A1" = .ok .missing ∧
      auditsOnlyDb.docGet "audits" "A1" = .ok (.existing storedMeta) ∧
      auditsOnlyDb.docGet "auditoría" "A1" = .ok .missing ∧
      (getAuditData { offlineCtx with db := some auditsOnlyDb } 0 "A1").1
        = [Effect.dbGet "auditorias" "A1", Effect.dbGet "audits" "A1",
            Effect.dbWhere "hallazgos" "auditoria_id" "A1"] ∧
      Effect.dbGet "auditorias" "A1" ∈
        (getAuditData { offlineCtx with db := some auditsOnlyDb } 0 "A1").1 := by
  refine ⟨rfl, rfl, rfl, rfl, ?_⟩
  have h : (getAuditData { offlineCtx with db := some auditsOnlyDb } 0 "A1").1
      = [Effect.dbGet "auditorias" "A1", Effect.dbGet "audits" "A1",
          Effect.dbWhere "hallazgos" "auditoria_id" "A1"] := rfl
  rw [h]
  exact List.mem_cons_self _ _

/-- C3, amended: when the document exists in exactly one candidate collection,
`getAuditData(auditId)` returns a record whose audit metadata is that
collection's document data; the lookups it issues are the candidates that come
before the hit in list order, then the hit, then the findings query, and it
issues no lookup against a candidate that comes after the hit. -/
theorem getAuditData_single_hit (ctx : Context) (db : Firestore) (now : Nat)
    (auditId c : String) (data : AuditMeta)
    (hc : c ∈ collections)
    (hhit : db.docGet c auditId = .ok (.existing data))
    (hothers : ∀ c2 ∈ collections, c2 ≠ c →
      ∀ d, db.docGet c2 auditId ≠ .ok (.existing d)) :
    (∃ record, (getAuditData { ctx with db := some db } now auditId).2 = .ok record ∧
        record.auditoria = some data) ∧
      (getAuditData { ctx with db := some db } now auditId).1
        = ((collections.takeWhile fun b => b ≠ c).map fun b => Effect.dbGet b auditId) ++
            [Effect.dbGet c auditId, Effect.dbWhere "hallazgos" "auditoria_id" auditId] ∧
      ∀ c2 ∈ (collections.dropWhile fun b => b ≠ c).tail,
        Effect.dbGet c2 auditId ∉ (getAuditData { ctx with db := some db } now auditId).1 := by
  simp only [collections, List.mem_cons, List.mem_singleton, List.not_mem_nil, or_false] at hc
  rcases hc with h | h | h <;> subst h
  · have hf := findAuditoria_hit db auditId [] ["audits", "auditoría"] "auditorias" data
      (by simp) hhit
    simp only [List.nil_append, List.map_nil] at hf
    simp [getAuditData, getAuditDataTry, collections, hf, findHallazgos_fst]
  · have hf := findAuditoria_hit db auditId ["auditorias"] ["auditoría"] "audits" data
      (by
        intro b hb d
        simp only [List.mem_singleton] at hb
        subst hb
        exact hothers "auditorias" (by simp [collections]) (by decide) d) hhit
    simp only [List.singleton_append, List.map_cons, List.map_nil] at hf
    simp [getAuditData, getAuditDataTry, collections, hf, findHallazgos_fst]
  · have hf := findAuditoria_hit db auditId ["auditorias", "audits"] [] "auditoría" data
      (by
        intro b hb d
        simp only [List.mem_cons, List.mem_singleton, List.not_mem_nil, or_false] at hb
        rcases hb with hb | hb <;> subst hb
        · exact hothers "auditorias" (by simp [collections]) (by decide) d
        · exact hothers "audits" (by simp [collections]) (by decide) d) hhit
    simp only [List.cons_append, List.nil_append, List.map_cons, List.map_nil] at hf
    simp [getAuditData, getAuditDataTry, collections, hf, findHallazgos_fst]

/-- Witness of the amended C3 on `auditsOnlyDb`, for the audit `A1`. -/
theorem getAuditData_single_hit_witness :
    (∃ record,
        (getAuditData { offlineCtx with db := some auditsOnlyDb } 0 "A1").2 = .ok record ∧
        record.auditoria = some storedMeta) ∧
      (getAuditData { offlineCtx with db := some auditsOnlyDb } 0 "A1").1
        = ((collections.takeWhile fun b => b ≠ "audits").map fun b =>
            Effect.dbGet b "A1") ++
            [Effect.dbGet "audits" "A1", Effect.dbWhere "hallazgos" "auditoria_id" "A1"] ∧
      ∀ c2 ∈ (collections.dropWhile fun b => b ≠ "audits").tail,
        Effect.dbGet c2 "A1" ∉
          (getAuditData { offlineCtx with db := some auditsOnlyDb } 0 "A1").1 :=
  getAuditData_single_hit offlineCtx auditsOnlyDb 0 "A1" "audits" storedMeta
    (by simp [collections]) rfl
    (by
      intro c2 hc2 hne d
      simp only [collections, List.mem_cons, List.mem_singleton, List.not_mem_nil,
        or_false] at hc2
      rcases hc2 with h | h | h <;> subst h
      · simp [auditsOnlyDb]
      · exact absurd rfl hne
      · simp [auditsOnlyDb])

/-- C4, as stated, fails: with the audit document found in the backend, the
record returned is not the synthetic one and its client is null. -/
theorem getAuditData_backend_record_without_client :
    (getAuditData { offlineCtx with db := some auditsOnlyDb } 0 "A1").2
        = .ok { cliente := none
                auditoria := some storedMeta
                hallazgos := some []
                recomendaciones := some []
                mediciones := some [] } ∧
      ({ cliente := none
         auditoria := some storedMeta
         hallazgos := some []
         recomendaciones := some []
         mediciones := some [] } : AuditData) ≠ getSimulatedData offlineCtx.host 0 "A1" ∧
      ({ cliente := none
         auditoria := some storedMeta
         hallazgos := some []
         recomendaciones := some []
         mediciones := some [] } : AuditData).cliente = none := by
  refine ⟨rfl, ?_, rfl⟩
  intro h
  have hc := congrArg AuditData.cliente h
  simp [getSimulatedData] at hc

/-- C4, amended: for every auditId and every backend behaviour, `getAuditData`
raises no error and returns a record that is either the synthetic record
`getSimulatedData(auditId)` or a record gathered from the backend: its client is
null, its findings list is present, its recommendations list is present and
empty, and its audit metadata is non-null or its findings list is non-empty. -/
theorem getAuditData_synthetic_or_gathered (ctx : Context) (now : Nat) (auditId : String) :
    ∃ record, (getAuditData ctx now auditId).2 = .ok record ∧
      (record = getSimulatedData ctx.host now auditId ∨
        (record.cliente = none ∧
          (∃ findings, record.hallazgos = some findings ∧
            (record.auditoria ≠ none ∨ findings ≠ [])) ∧
          record.recomendaciones = some [])) := by
  unfold getAuditData
  cases hdb : ctx.db with
  | none => exact ⟨_, rfl, Or.inl rfl⟩
  | some db =>
    by_cases hcond : ((findAuditoria db auditId collections).2.isNone &&
        (findHallazgos db auditId).2.length == 0) = true
    · simp only [getAuditDataTry, hcond, if_true]
      exact ⟨_, rfl, Or.inl rfl⟩
    · simp only [getAuditDataTry, hcond, if_false]
      refine ⟨_, rfl, Or.inr ⟨rfl, ⟨_, rfl, ?_⟩, rfl⟩⟩
      simp only [Bool.and_eq_true, Option.isNone_iff_eq_none, beq_iff_eq,
        List.length_eq_zero, not_and] at hcond
      by_cases hnone : (findAuditoria db auditId collections).2 = none
      · exact Or.inr (hcond hnone)
      · exact Or.inl hnone

/-! ## Renderer properties -/

/-- A piece of a joined text occurs in the text. -/
theorem contains_join {pieces : List String} {piece : String} (h : piece ∈ pieces) :
    Contains (String.join pieces) piece := by
  unfold Contains
  rw [String.data_join]
  exact List.infix_of_mem_flatten (List.mem_map_of_mem String.data h)

/-- Occurrence is transitive. -/
theorem contains_trans {a b c : String} (hab : Contains a b) (hbc : Contains b c) :
    Contains a c :=
  List.IsInfix.trans hbc hab

/-- The fallback page contains the client name. -/
theorem htmlContent_contains_cliente (data : ProcessedData) :
    Contains (htmlContent data) data.cliente_nombre := by
  apply contains_join
  simp

/-- The fallback page contains the description of every finding. -/
theorem htmlContent_contains_descripcion (data : ProcessedData) (h : Finding)
    (hmem : h ∈ data.hallazgos) : Contains (htmlContent data) h.descripcion := by
  have h1 : Contains (htmlContent data) (String.join (data.hallazgos.map hallazgoHtml)) := by
    apply contains_join
    simp
  have h2 : Contains (String.join (data.hallazgos.map hallazgoHtml)) (hallazgoHtml h) :=
    contains_join (List.mem_map_of_mem hallazgoHtml hmem)
  have h3 : Contains (hallazgoHtml h) h.descripcion := by
    apply contains_join
    simp
  exact contains_trans (contains_trans h1 h2) h3

/-- C5: `generateWithDocumentero` never raises and returns `success = true`;
when the render request throws or ends in a non-success HTTP status, the result
is `generateHTMLFallback(doc)`, whose filename is `numero_documento` followed by
".html" and whose HTML text contains `cliente_nombre` and the `descripcion` of
every finding of the document. -/
theorem generateWithDocumentero_never_fails (ctx : Context) (data : ProcessedData)
    (apiKey : String) :
    (∃ result, (generateWithDocumentero ctx data apiKey).2 = .ok result ∧
        result.success = true) ∧
      ((∀ config, ctx.config = some config →
          (∃ e, ctx.fetch (renderRequest ctx.host config data apiKey) = .error e) ∨
          ∃ response, ctx.fetch (renderRequest ctx.host config data apiKey) = .ok response ∧
            response.ok = false) →
        (generateWithDocumentero ctx data apiKey).2 = .ok (generateHTMLFallback data)) ∧
      (generateHTMLFallback data).filename = data.numero_documento ++ ".html" ∧
      ∃ html, (generateHTMLFallback data).blob = Blob.ofParts [html] "text/html" ∧
        Contains html data.cliente_nombre ∧
        ∀ h ∈ data.hallazgos, Contains html h.descripcion := by
  refine ⟨?_, ?_, rfl, htmlContent data, rfl, htmlContent_contains_cliente data,
    htmlContent_contains_descripcion data⟩
  · unfold generateWithDocumentero generateWithDocumenteroTry
    cases ctx.config with
    | none => exact ⟨_, rfl, rfl⟩
    | some config =>
      simp only
      cases ctx.fetch (renderRequest ctx.host config data apiKey) with
      | error e => exact ⟨_, rfl, rfl⟩
      | ok response =>
        simp only
        cases hok : response.ok with
        | false => exact ⟨_, rfl, rfl⟩
        | true =>
          simp only [Bool.not_true, Bool.false_eq_true, if_false]
          cases response.blob with
          | error e => exact ⟨_, rfl, rfl⟩
          | ok documentBlob => exact ⟨_, rfl, rfl⟩
  · intro hfail
    unfold generateWithDocumentero generateWithDocumenteroTry
    cases hcfg : ctx.config with
    | none => rfl
    | some config =>
      simp only
      rcases hfail config hcfg with ⟨e, he⟩ | ⟨response, hr, hok⟩
      · rw [he]
      · rw [hr]
        simp [hok]

/-- Witness of C5: the render endpoint answers HTTP 500. -/
theorem generateWithDocumentero_never_fails_witness :
    (generateWithDocumentero serverErrorCtx sampleDocument "key").2
      = .ok (generateHTMLFallback sampleDocument) :=
  (generateWithDocumentero_never_fails serverErrorCtx sampleDocument "key").2.1
    (fun _ _ =>
      Or.inr ⟨{ status := 500, blob := .ok (Blob.ofBytes [] "text/plain") }, rfl, rfl⟩)

/-- C6: when the render endpoint answers with a success status (200 to 299,
HTTP 200 in particular) and body `B`, `generateWithDocumentero` returns
`success = true`, the filename `numero_documento` followed by ".docx", and
the content `B` itself. -/
theorem generateWithDocumentero_primary (ctx : Context) (config : Config)
    (data : ProcessedData) (apiKey : String) (status : Nat) (body : Blob)
    (hconfig : ctx.config = some config)
    (hfetch : ctx.fetch (renderRequest ctx.host config data apiKey)
      = .ok { status := status, blob := .ok body })
    (hstatus : 200 ≤ status ∧ status ≤ 299) :
    (generateWithDocumentero ctx data apiKey).2
      = .ok { success := true
              blob := body
              filename := data.numero_documento ++ ".docx" } := by
  unfold generateWithDocumentero generateWithDocumenteroTry
  rw [hconfig]
  simp only
  rw [hfetch]
  simp [Response.ok, hstatus.1, hstatus.2]

/-- Witness of C6: the render endpoint answers HTTP 200 with `servedBody`. -/
theorem generateWithDocumentero_primary_witness :
    (200 ≤ 200 ∧ 200 ≤ 299) ∧
      (generateWithDocumentero renderingCtx sampleDocument "key").2
        = .ok { success := true
                blob := servedBody
                filename := sampleDocument.numero_documento ++ ".docx" } :=
  ⟨by decide,
    generateWithDocumentero_primary renderingCtx { baseUrl := "https://api.example" }
      sampleDocument "key" 200 servedBody rfl rfl (by decide)⟩

/-! ## Projector properties -/

/-- Every decimal digit character is a digit. -/
theorem digitChar_isDigit (n : Nat) (h : n < 10) : (Nat.digitChar n).isDigit = true := by
  interval_cases n <;> rfl

/-- The digit loop only adds digit characters. -/
theorem toDigitsCore_isDigit (fuel : Nat) :
    ∀ (n : Nat) (ds : List Char), (∀ c ∈ ds, c.isDigit = true) →
      ∀ c ∈ Nat.toDigitsCore 10 fuel n ds, c.isDigit = true := by
  induction fuel with
  | zero =>
    intro n ds hds c hc
    exact hds c hc
  | succ fuel ih =>
    intro n ds hds c hc
    have hcons : ∀ c ∈ Nat.digitChar (n % 10) :: ds, c.isDigit = true := by
      intro c hc
      rcases List.mem_cons.mp hc with h | h
      · rw [h]
        exact digitChar_isDigit _ (Nat.mod_lt _ (by decide))
      · exact hds c h
    simp only [Nat.toDigitsCore] at hc
    split at hc
    · exact hcons c hc
    · exact ih _ _ hcons c hc

/-- The digit loop never empties a non-empty accumulator. -/
theorem toDigitsCore_ne_nil (fuel : Nat) :
    ∀ (n : Nat) (ds : List Char), ds ≠ [] → Nat.toDigitsCore 10 fuel n ds ≠ [] := by
  induction fuel with
  | zero =>
    intro n ds hds
    exact hds
  | succ fuel ih =>
    intro n ds _
    simp only [Nat.toDigitsCore]
    split
    · exact List.cons_ne_nil _ _
    · exact ih _ _ (List.cons_ne_nil _ _)

/-- The text of a number is a non-empty run of decimal digits. -/
theorem numberToString_digits (n : Nat) :
    (numberToString n).data ≠ [] ∧ ∀ c ∈ (numberToString n).data, c.isDigit = true := by
  have hdata : (numberToString n).data = Nat.toDigitsCore 10 (n + 1) n [] := rfl
  rw [hdata]
  constructor
  · simp only [Nat.toDigitsCore]
    split
    · exact List.cons_ne_nil _ _
    · exact toDigitsCore_ne_nil _ _ _ (List.cons_ne_nil _ _)
  · exact toDigitsCore_isDigit _ _ _ (fun c hc => absurd hc (List.not_mem_nil c))

/-- Every decimal digit character denotes its digit. -/
theorem digitChar_value (n : Nat) (h : n < 10) : (Nat.digitChar n).toNat - 48 = n := by
  interval_cases n <;> rfl

/-- The digit loop writes the digits of `n` in front of the accumulator. -/
theorem toDigitsCore_value (fuel : Nat) :
    ∀ (n : Nat) (ds : List Char), n < fuel →
      (Nat.toDigitsCore 10 fuel n ds).foldl (fun acc c => 10 * acc + (c.toNat - 48)) 0
        = ds.foldl (fun acc c => 10 * acc + (c.toNat - 48)) n := by
  induction fuel with
  | zero =>
    intro n ds h
    exact absurd h (Nat.not_lt_zero n)
  | succ fuel ih =>
    intro n ds h
    have hd := digitChar_value (n % 10) (Nat.mod_lt _ (by decide))
    simp only [Nat.toDigitsCore]
    split
    · rename_i hzero
      have hn : n % 10 = n := Nat.mod_eq_of_lt (by omega)
      simp only [List.foldl_cons, Nat.mul_zero, Nat.zero_add, hd]
      rw [hn]
    · rename_i hpos
      have hlt : n / 10 < fuel := by omega
      rw [ih (n / 10) _ hlt]
      simp only [List.foldl_cons, hd]
      have hn : 10 * (n / 10) + n % 10 = n := Nat.div_add_mod n 10
      rw [hn]

/-- The text of a number denotes that number in base ten. -/
theorem numberToString_value (n : Nat) : decimalValue (numberToString n).data = n := by
  have hdata : (numberToString n).data = Nat.toDigitsCore 10 (n + 1) n [] := rfl
  rw [hdata]
  unfold decimalValue
  rw [toDigitsCore_value (n + 1) n [] (Nat.lt_succ_self n)]
  rfl

/-- The word "informe" is made of ASCII characters and its upper-casing is
"INFORME". -/
theorem asciiUpperCase_informe :
    (∀ c ∈ "informe".data, c.toNat < 128) ∧ asciiUpperCase "informe" = "INFORME" := by
  constructor
  · decide
  · decide

/-- C7: for every audit record with findings list `F` and recommendations list
`R`, every document type `t` and every clock reading `ms`,
`processDataForDocument` yields `numero_documento = uppercase(t) + "-" +
decimal(ms)`, where `uppercase` is the platform's `toUpperCase` and
`decimal(ms)` is a non-empty run of digits that denotes `ms` in base ten. On a
platform whose `toUpperCase` follows ECMAScript on ASCII strings, an ASCII type
`t` gives its ASCII upper-casing, so `t = "informe"` gives "INFORME-" followed
by one or more digits. Further `total_hallazgos = length(F)`,
`total_recomendaciones = length(R)`, and `F` and `R` are carried unchanged as
`hallazgos` and `recomendaciones`. -/
theorem processDataForDocument_number_and_lists (host : Host) (ms : Nat)
    (cliente : Option Client) (auditoria : Option AuditMeta) (F : List Finding)
    (R : List Recommendation) (mediciones : Option (List String)) (t : String) :
    (processDataForDocument host ms
        { cliente := cliente, auditoria := auditoria, hallazgos := some F,
          recomendaciones := some R, mediciones := mediciones } t).numero_documento
        = host.toUpperCase t ++ "-" ++ numberToString ms ∧
      ((numberToString ms).data ≠ [] ∧ ∀ c ∈ (numberToString ms).data, c.isDigit = true) ∧
      decimalValue (numberToString ms).data = ms ∧
      (host.UpperAscii → (∀ c ∈ t.data, c.toNat < 128) →
        (processDataForDocument host ms
          { cliente := cliente, auditoria := auditoria, hallazgos := some F,
            recomendaciones := some R, mediciones := mediciones } t).numero_documento
          = asciiUpperCase t ++ "-" ++ numberToString ms) ∧
      (host.UpperAscii →
        (processDataForDocument host ms
          { cliente := cliente, auditoria := auditoria, hallazgos := some F,
            recomendaciones := some R, mediciones := mediciones } "informe").numero_documento
          = "INFORME-" ++ numberToString ms) ∧
      (processDataForDocument host ms
        { cliente := cliente, auditoria := auditoria, hallazgos := some F,
          recomendaciones := some R, mediciones := mediciones } t).total_hallazgos
        = F.length ∧
      (processDataForDocument host ms
        { cliente := cliente, auditoria := auditoria, hallazgos := some F,
          recomendaciones := some R, mediciones := mediciones } t).total_recomendaciones
        = R.length ∧
      (processDataForDocument host ms
        { cliente := cliente, auditoria := auditoria, hallazgos := some F,
          recomendaciones := some R, mediciones := mediciones } t).hallazgos = F ∧
      (processDataForDocument host ms
        { cliente := cliente, auditoria := auditoria, hallazgos := some F,
          recomendaciones := some R, mediciones := mediciones } t).recomendaciones = R := by
  refine ⟨rfl, numberToString_digits ms, numberToString_value ms, ?_, ?_, ?_, ?_, rfl, rfl⟩
  · intro hupper hascii
    simp only [processDataForDocument, hupper t hascii]
  · intro hupper
    simp only [processDataForDocument, hupper "informe" asciiUpperCase_informe.1,
      asciiUpperCase_informe.2]
    rfl
  · simp only [processDataForDocument, lengthOrZero]
    split <;> simp_all
  · simp only [processDataForDocument, lengthOrZero]
    split <;> simp_all

/-- Witness of C7: on `sampleHost`, which follows ECMAScript on ASCII strings,
the type "informe" at clock reading 7 gives "INFORME-7"; on `accentHost` the
type "informe técnico" gives "INFORME TÉCNICO-7". -/
theorem processDataForDocument_number_and_lists_witness :
    (processDataForDocument sampleHost 7
        { cliente := none, auditoria := none, hallazgos := some [],
          recomendaciones := some [], mediciones := none } "informe").numero_documento
        = "INFORME-7" ∧
      (processDataForDocument accentHost 7
        { cliente := none, auditoria := none, hallazgos := some [],
          recomendaciones := some [], mediciones := none } "informe técnico").numero_documento
        = "INFORME TÉCNICO-7" :=
  ⟨(processDataForDocument_number_and_lists sampleHost 7 none none [] [] none
      "informe").2.2.2.2.1 (fun _ _ => rfl),
    (processDataForDocument_number_and_lists accentHost 7 none none [] [] none
      "informe técnico").1⟩

/-- The expression `list?.length || 0` is the length of the list, 0 when absent. -/
theorem lengthOrZero_eq {α : Type} (list : Option (List α)) :
    lengthOrZero list = (list.getD []).length := by
  cases list with
  | none => rfl
  | some l =>
    simp only [lengthOrZero, Option.getD_some]
    split <;> simp_all

/-- C8: for every audit record and document type, `processDataForDocument`
returns a document in which each missing nested field takes its placeholder:
`cliente_nombre = 'Cliente no especificado'`, `cliente_email = ''` and
`cliente_telefono = ''` when the client or the field is absent,
`auditoria_id = 'N/A'` when the audit metadata or its id is absent, empty lists
with counts 0 when the lists are absent; a field that is present and non-empty
is copied unchanged. -/
theorem processDataForDocument_placeholders (host : Host) (now : Nat) (r : AuditData)
    (t : String) :
    (r.cliente = none →
        (processDataForDocument host now r t).cliente_nombre = "Cliente no especificado" ∧
        (processDataForDocument host now r t).cliente_email = "" ∧
        (processDataForDocument host now r t).cliente_telefono = "") ∧
      (∀ c, r.cliente = some c →
        (c.nombre = none →
          (processDataForDocument host now r t).cliente_nombre = "Cliente no especificado") ∧
        (∀ v, c.nombre = some v → v ≠ "" →
          (processDataForDocument host now r t).cliente_nombre = v) ∧
        (c.email = none → (processDataForDocument host now r t).cliente_email = "") ∧
        (∀ v, c.email = some v → v ≠ "" →
          (processDataForDocument host now r t).cliente_email = v) ∧
        (c.telefono = none → (processDataForDocument host now r t).cliente_telefono = "") ∧
        (∀ v, c.telefono = some v → v ≠ "" →
          (processDataForDocument host now r t).cliente_telefono = v)) ∧
      (r.auditoria = none → (processDataForDocument host now r t).auditoria_id = "N/A") ∧
      (∀ a, r.auditoria = some a →
        (a.id = none → (processDataForDocument host now r t).auditoria_id = "N/A") ∧
        (∀ v, a.id = some v → v ≠ "" →
          (processDataForDocument host now r t).auditoria_id = v)) ∧
      (r.hallazgos = none →
        (processDataForDocument host now r t).hallazgos = [] ∧
        (processDataForDocument host now r t).total_hallazgos = 0) ∧
      (∀ F, r.hallazgos = some F →
        (processDataForDocument host now r t).hallazgos = F ∧
        (processDataForDocument host now r t).total_hallazgos = F.length) ∧
      (r.recomendaciones = none →
        (processDataForDocument host now r t).recomendaciones = [] ∧
        (processDataForDocument host now r t).total_recomendaciones = 0) ∧
      (∀ R, r.recomendaciones = some R →
        (processDataForDocument host now r t).recomendaciones = R ∧
        (processDataForDocument host now r t).total_recomendaciones = R.length) := by
  refine ⟨?_, ?_, ?_, ?_, ?_, ?_, ?_, ?_⟩
  · intro h
    simp [processDataForDocument, h, orDefault]
  · intro c h
    refine ⟨?_, ?_, ?_, ?_, ?_, ?_⟩
    · intro hn
      simp [processDataForDocument, h, hn, orDefault]
    · intro v hv hne
      simp [processDataForDocument, h, hv, hne, orDefault]
    · intro hn
      simp [processDataForDocument, h, hn, orDefault]
    · intro v hv hne
      simp [processDataForDocument, h, hv, hne, orDefault]
    · intro hn
      simp [processDataForDocument, h, hn, orDefault]
    · intro v hv hne
      simp [processDataForDocument, h, hv, hne, orDefault]
  · intro h
    simp [processDataForDocument, h, orDefault]
  · intro a h
    refine ⟨?_, ?_⟩
    · intro hn
      simp [processDataForDocument, h, hn, orDefault]
    · intro v hv hne
      simp [processDataForDocument, h, hv, hne, orDefault]
  · intro h
    simp [processDataForDocument, h, listOrEmpty, lengthOrZero]
  · intro F h
    simp [processDataForDocument, h, listOrEmpty, lengthOrZero_eq]
  · intro h
    simp [processDataForDocument, h, listOrEmpty, lengthOrZero]
  · intro R h
    simp [processDataForDocument, h, listOrEmpty, lengthOrZero_eq]

/-- Witness of C8 on `recordA`: the client name is copied, the absent email and
the absent recommendations take their placeholders. -/
theorem processDataForDocument_placeholders_witness :
    (processDataForDocument sampleHost 0 recordA "informe").cliente_nombre = "Planta Norte" ∧
      (processDataForDocument sampleHost 0 recordA "informe").cliente_email = "" ∧
      (processDataForDocument sampleHost 0 recordA "informe").recomendaciones = [] ∧
      (processDataForDocument sampleHost 0 recordA "informe").total_recomendaciones = 0 :=
  ⟨((processDataForDocument_placeholders sampleHost 0 recordA "informe").2.1
      { nombre := some "Planta Norte", email := none, telefono := some "" } rfl).2.1
      "Planta Norte" rfl (by decide),
    ((processDataForDocument_placeholders sampleHost 0 recordA "informe").2.1
      { nombre := some "Planta Norte", email := none, telefono := some "" } rfl).2.2.1 rfl,
    ((processDataForDocument_placeholders sampleHost 0 recordA "informe").2.2.2.2.2.2.1 rfl).1,
    ((processDataForDocument_placeholders sampleHost 0 recordA "informe").2.2.2.2.2.2.1 rfl).2⟩

/-- C9: `generateSummary(record)`, which is the `resumen_ejecutivo` of the
projected document, is the fixed three-sentence template with the client name
(or 'la instalación' when the client or its name is absent) and the number of
findings interpolated; two records with the same client name and the same number
of findings have the same summary, whatever their findings, recommendations and
audit metadata contain. -/
theorem generateSummary_template (host : Host) (now : Nat) (r : AuditData) (t : String) :
    (processDataForDocument host now r t).resumen_ejecutivo = generateSummary r ∧
      ((r.cliente.bind fun c => c.nombre) = none →
        generateSummary r =
          ("Se realizó una auditoría energética en " ++ "la instalación" ++ ". ") ++
            ("Se identificaron " ++ numberToString (r.hallazgos.getD []).length ++
              " hallazgos que requieren atención. ") ++
            "Se han formulado recomendaciones específicas para mejorar la eficiencia energética.") ∧
      (∀ nombre, (r.cliente.bind fun c => c.nombre) = some nombre → nombre ≠ "" →
        generateSummary r =
          ("Se realizó una auditoría energética en " ++ nombre ++ ". ") ++
            ("Se identificaron " ++ numberToString (r.hallazgos.getD []).length ++
              " hallazgos que requieren atención. ") ++
            "Se han formulado recomendaciones específicas para mejorar la eficiencia energética.") ∧
      ∀ r2 : AuditData,
        (r.cliente.bind fun c => c.nombre) = (r2.cliente.bind fun c => c.nombre) →
        (r.hallazgos.getD []).length = (r2.hallazgos.getD []).length →
        generateSummary r = generateSummary r2 := by
  refine ⟨rfl, ?_, ?_, ?_⟩
  · intro h
    simp only [generateSummary, h, orDefault, lengthOrZero_eq]
  · intro nombre h hne
    simp only [generateSummary, h, orDefault, lengthOrZero_eq, if_neg hne]
  · intro r2 hname hcount
    simp only [generateSummary, hname, lengthOrZero_eq, hcount]

/-- Witness of C9: `recordA` and `recordB` share the client name and the number
of findings and differ in everything else; their summaries are equal. -/
theorem generateSummary_template_witness :
    recordA.hallazgos ≠ recordB.hallazgos ∧ generateSummary recordA = generateSummary recordB :=
  ⟨by decide,
    (generateSummary_template sampleHost 0 recordA "informe").2.2.2 recordB rfl rfl⟩

/-! ## End-to-end properties of `generateDocument` -/

/-- The downloads of a concatenation are the downloads of its parts. -/
theorem downloads_append (a b : List Effect) :
    downloads (a ++ b) = downloads a ++ downloads b := by
  induction a with
  | nil => rfl
  | cons e rest ih =>
    cases e <;> simp [downloads, ih]

/-- The probe `checkDocumentero` returns a value and starts no download. -/
theorem checkDocumentero_returns (ctx : Context) (apiKey : String) :
    ∃ fx connected, checkDocumentero ctx apiKey = (fx, .ok connected) ∧ downloads fx = [] := by
  unfold checkDocumentero checkDocumenteroTry
  by_cases hkey : apiKey = ""
  · simp only [hkey, if_true]
    exact ⟨_, _, rfl, rfl⟩
  · simp only [hkey, if_false]
    cases ctx.config with
    | none => exact ⟨_, _, rfl, rfl⟩
    | some config =>
      simp only
      cases ctx.fetch (pingRequest config apiKey) with
      | error e => exact ⟨_, _, rfl, rfl⟩
      | ok response =>
        simp only
        by_cases hok : (response.ok || response.status == 404) = true
        · simp only [hok, if_true]
          exact ⟨_, _, rfl, rfl⟩
        · simp only [hok, if_false]
          exact ⟨_, _, rfl, rfl⟩

/-- When the render request throws or ends in a non-success status,
`generateWithDocumentero` returns the HTML fallback and starts no download. -/
theorem generateWithDocumentero_fallback_of_failure (ctx : Context) (data : ProcessedData)
    (apiKey : String)
    (hfail : ∀ config, ctx.config = some config →
      (∃ e, ctx.fetch (renderRequest ctx.host config data apiKey) = .error e) ∨
      ∃ response, ctx.fetch (renderRequest ctx.host config data apiKey) = .ok response ∧
        response.ok = false) :
    ∃ fx, generateWithDocumentero ctx data apiKey = (fx, .ok (generateHTMLFallback data)) ∧
      downloads fx = [] := by
  unfold generateWithDocumentero generateWithDocumenteroTry
  cases hcfg : ctx.config with
  | none => exact ⟨_, rfl, rfl⟩
  | some config =>
    simp only
    rcases hfail config hcfg with ⟨e, he⟩ | ⟨response, hr, hok⟩
    · rw [he]
      exact ⟨_, rfl, rfl⟩
    · rw [hr]
      simp only [hok, Bool.not_false, if_true]
      exact ⟨_, rfl, rfl⟩

/-- C10, as stated, fails: with the backend unavailable and the render endpoint
answering HTTP 200, the file that `generateDocument` downloads for the audit
`A1` is named "INFORME-7.docx" and holds the served body, not an HTML page. -/
theorem generateDocument_offline_docx :
    renderingCtx.db = none ∧
      downloads (generateDocument renderingCtx 5 7 "key" "A1" "informe")
        = [(servedBody, "INFORME-7.docx")] ∧
      "INFORME-7.docx" ≠
        renderingCtx.host.toUpperCase "informe" ++ "-" ++ numberToString 7 ++ ".html" := by
  refine ⟨rfl, ?_, by decide⟩
  rfl

/-- C10, amended: for every non-empty credential, non-empty auditId and
non-empty document type, when the backend is unavailable and the render request
throws or ends in a non-success status, `generateDocument` downloads exactly
one file, named `uppercase(TYPE) + "-" + millis + ".html"`, whose HTML text
contains "Empresa Ejemplo S.A." and the descriptions of both synthetic findings. -/
theorem generateDocument_offline_html (ctx : Context) (nowAudit nowProcess : Nat)
    (apiKey auditId documentType : String)
    (hkey : apiKey ≠ "") (hid : auditId ≠ "") (htype : documentType ≠ "")
    (hfail : ∀ config, ctx.config = some config → ∀ data,
      (∃ e, ctx.fetch (renderRequest ctx.host config data apiKey) = .error e) ∨
      ∃ response, ctx.fetch (renderRequest ctx.host config data apiKey) = .ok response ∧
        response.ok = false) :
    ∃ html,
      downloads (generateDocument { ctx with db := none } nowAudit nowProcess apiKey auditId
          documentType)
        = [(Blob.ofParts [html] "text/html",
            ctx.host.toUpperCase documentType ++ "-" ++ numberToString nowProcess ++
              ".html")] ∧
      Contains html "Empresa Ejemplo S.A." ∧
      Contains html "Consumo elevado en iluminación" ∧
      Contains html "Factor de potencia bajo" := by
  obtain ⟨fx1, connected, hcheck, hfx1⟩ := checkDocumentero_returns { ctx with db := none } apiKey
  obtain ⟨fx6, hrender, hfx6⟩ := generateWithDocumentero_fallback_of_failure
    { ctx with db := none }
    (processDataForDocument ctx.host nowProcess (getSimulatedData ctx.host nowAudit auditId)
      documentType)
    apiKey (fun config hcfg => hfail config hcfg _)
  refine ⟨htmlContent (processDataForDocument ctx.host nowProcess
    (getSimulatedData ctx.host nowAudit auditId) documentType), ?_, ?_, ?_, ?_⟩
  · have haudit : getAuditData { ctx with db := none } nowAudit auditId
        = ([], .ok (getSimulatedData ctx.host nowAudit auditId)) := rfl
    simp only [generateDocument, generateDocumentTry, hkey, hid, htype, or_self, if_false,
      hcheck, haudit, hrender]
    simp [generateHTMLFallback, downloadFile, downloads_append, downloads, hfx1, hfx6,
      processDataForDocument]
  · exact htmlContent_contains_cliente _
  · exact htmlContent_contains_descripcion _
      { descripcion := "Consumo elevado en iluminación"
        criticidad := "alta"
        ubicacion := "Área de producción" }
      (List.mem_cons_self _ _)
  · exact htmlContent_contains_descripcion _
      { descripcion := "Factor de potencia bajo"
        criticidad := "media"
        ubicacion := "Tablero principal" }
      (List.mem_cons_of_mem _ (List.mem_cons_self _ _))

/-- Witness of the amended C10: the audit `A1`, no backend connection and a
network that always fails; the type "informe" on `sampleHost` gives the file
"INFORME-7.html", the type "auditoría" on `accentHost` gives "AUDITORÍA-7.html". -/
theorem generateDocument_offline_html_witness :
    (∃ html,
      downloads (generateDocument { offlineCtx with db := none } 5 7 "key" "A1" "informe")
        = [(Blob.ofParts [html] "text/html", "INFORME-7.html")] ∧
      Contains html "Empresa Ejemplo S.A." ∧
      Contains html "Consumo elevado en iluminación" ∧
      Contains html "Factor de potencia bajo") ∧
    (∃ html,
      downloads (generateDocument { accentCtx with db := none } 5 7 "key" "A1" "auditoría")
        = [(Blob.ofParts [html] "text/html", "AUDITORÍA-7.html")] ∧
      Contains html "Empresa Ejemplo S.A." ∧
      Contains html "Consumo elevado en iluminación" ∧
      Contains html "Factor de potencia bajo") :=
  ⟨generateDocument_offline_html offlineCtx 5 7 "key" "A1" "informe"
      (by decide) (by decide) (by decide)
      (fun _ _ _ => Or.inl ⟨"Failed to fetch", rfl⟩),
    generateDocument_offline_html accentCtx 5 7 "key" "A1" "auditoría"
      (by decide) (by decide) (by decide)
      (fun _ _ _ => Or.inl ⟨"Failed to fetch", rfl⟩)⟩

/-! ## Properties of the probe `checkDocumentero` -/

/-- C11: `checkDocumentero(apiKey)` never raises. It returns false without
sending any request when `apiKey` is empty. Otherwise it sends the ping request
and returns true when the response has a success status or status 404, false
for every other response status, and true when the request throws (also when
reading the configuration throws, before any request is sent). -/
theorem checkDocumentero_outcomes (ctx : Context) (apiKey : String) :
    (∃ connected, (checkDocumentero ctx apiKey).2 = .ok connected) ∧
      (apiKey = "" →
        (checkDocumentero ctx apiKey).2 = .ok false ∧
        requests (checkDocumentero ctx apiKey).1 = []) ∧
      (apiKey ≠ "" → ∀ config, ctx.config = some config →
        requests (checkDocumentero ctx apiKey).1 = [pingRequest config apiKey] ∧
        (∀ response, ctx.fetch (pingRequest config apiKey) = .ok response →
          (response.ok = true ∨ response.status = 404 →
            (checkDocumentero ctx apiKey).2 = .ok true) ∧
          (¬ (response.ok = true ∨ response.status = 404) →
            (checkDocumentero ctx apiKey).2 = .ok false)) ∧
        (∀ e, ctx.fetch (pingRequest config apiKey) = .error e →
          (checkDocumentero ctx apiKey).2 = .ok true)) ∧
      (apiKey ≠ "" → ctx.config = none →
        (checkDocumentero ctx apiKey).2 = .ok true ∧
        requests (checkDocumentero ctx apiKey).1 = []) := by
  refine ⟨?_, ?_, ?_, ?_⟩
  · unfold checkDocumentero checkDocumenteroTry
    by_cases hkey : apiKey = ""
    · simp only [hkey, if_true]
      exact ⟨_, rfl⟩
    · simp only [hkey, if_false]
      cases ctx.config with
      | none => exact ⟨_, rfl⟩
      | some config =>
        simp only
        cases ctx.fetch (pingRequest config apiKey) with
        | error e => exact ⟨_, rfl⟩
        | ok response =>
          simp only
          by_cases hok : (response.ok || response.status == 404) = true
          · simp only [hok, if_true]
            exact ⟨_, rfl⟩
          · simp only [hok, if_false]
            exact ⟨_, rfl⟩
  · intro hkey
    unfold checkDocumentero checkDocumenteroTry
    rw [if_pos hkey]
    exact ⟨rfl, rfl⟩
  · intro hkey config hconfig
    unfold checkDocumentero checkDocumenteroTry
    simp only [hkey, if_false, hconfig]
    refine ⟨?_, ?_, ?_⟩
    · cases ctx.fetch (pingRequest config apiKey) with
      | error e => rfl
      | ok response =>
        simp only
        by_cases hok : (response.ok || response.status == 404) = true
        · simp only [hok, if_true]
          rfl
        · simp only [hok, if_false]
          rfl
    · intro response hfetch
      rw [hfetch]
      simp only
      constructor
      · intro h
        have hok : (response.ok || response.status == 404) = true := by
          simpa [Bool.or_eq_true, beq_iff_eq] using h
        simp only [hok, if_true]
      · intro h
        have hok : ¬ (response.ok || response.status == 404) = true := by
          simpa [Bool.or_eq_true, beq_iff_eq] using h
        simp [hok]
    · intro e hfetch
      rw [hfetch]
  · intro hkey hconfig
    unfold checkDocumentero checkDocumenteroTry
    rw [if_neg hkey, hconfig]
    exact ⟨rfl, rfl⟩

/-- Witness of C11: an empty credential, then the credential "key" against a
network that answers 404, one that answers 500 and one that always fails. -/
theorem checkDocumentero_outcomes_witness :
    ((checkDocumentero offlineCtx "").2 = .ok false ∧
        requests (checkDocumentero offlineCtx "").1 = []) ∧
      (checkDocumentero notFoundCtx "key").2 = .ok true ∧
      (checkDocumentero serverErrorCtx "key").2 = .ok false ∧
      (checkDocumentero offlineCtx "key").2 = .ok true :=
  ⟨(checkDocumentero_outcomes offlineCtx "").2.1 rfl,
    (((checkDocumentero_outcomes notFoundCtx "key").2.2.1 (by decide)
      { baseUrl := "https://api.example" } rfl).2.1
      { status := 404, blob := .ok (Blob.ofBytes [] "text/plain") } rfl).1 (Or.inr rfl),
    (((checkDocumentero_outcomes serverErrorCtx "key").2.2.1 (by decide)
      { baseUrl := "https://api.example" } rfl).2.1
      { status := 500, blob := .ok (Blob.ofBytes [] "text/plain") } rfl).2 (by decide),
    ((checkDocumentero_outcomes offlineCtx "key").2.2.1 (by decide)
      { baseUrl := "https://api.example" } rfl).2.2 "Failed to fetch" rfl⟩

end EnergyDocumentSystem
